import Mathlib

/-!
Verification of the crime-case management application (`lab6.py`): a shallow
embedding of its record store, validation, query filtering, aggregation and
export/backup operations, with theorems settling the specification's claims.
-/

/-- The closed set of crime types (source line 32). -/
def CRIME_TYPES : List String :=
  ["Theft", "Murder", "Assault", "Cybercrime", "Fraud", "Burglary",
   "Drug Offense", "Vandalism", "Domestic Violence", "Other"]

/-- The closed set of case statuses (source line 33). -/
def STATUSES : List String :=
  ["Open", "Under Investigation", "Closed", "Cold Case", "Pending Review"]

/-- The closed set of priorities (source line 34). -/
def PRIORITIES : List String := ["Low", "Medium", "High", "Critical"]

/-- A stored case record: the dict built at source lines 126-138, with its
eleven keys in insertion order `ID, Type, Location, Officer, Status, Priority,
Description, Notes, Date_Registered, Incident_Date, Files`. All values are the
strings stored there except `Files`, the attachment count (an int). -/
structure CrimeRecord where
  ID : String
  Type' : String
  Location : String
  Officer : String
  Status : String
  Priority : String
  Description : String
  Notes : String
  Date_Registered : String
  Incident_Date : String
  Files : Nat
deriving DecidableEq, Repr

/-- The session state of the application: `st.session_state.crimes` (ordered
record list), `st.session_state.uploaded_files` (attachment index: case id to
list of stored file paths), `st.session_state.officers` (officer registry,
insertion-ordered). Source lines 22-28. -/
structure SessionState where
  crimes : List CrimeRecord
  uploaded_files : List (String × List String)
  officers : List String
deriving DecidableEq, Repr

/-- `initialize_session_state` (source lines 22-28): empty record store, empty
attachment index, and the five seeded default officers. -/
def initialize_session_state : SessionState :=
  { crimes := []
    uploaded_files := []
    officers := ["Officer Smith", "Officer Johnson", "Officer Brown",
                 "Officer Davis", "Officer Wilson"] }

/-- The sidebar add-officer handler (source lines 75-80): appends the name when
absent, otherwise reports "already exists" and leaves the registry unchanged. -/
def add_officer (st : SessionState) (name : String) : SessionState :=
  if name ∉ st.officers then { st with officers := st.officers ++ [name] }
  else st

/-- The clear-all-data button handler in the Settings tab (source lines
359-364): resets `crimes` to `[]` and `uploaded_files` to `{}`; the officer
registry is not touched. -/
def clear_all_data (st : SessionState) : SessionState :=
  { st with crimes := [], uploaded_files := [] }

/-- Python `str.strip()`: drop whitespace from both ends (used by
`validate_form_data`, source lines 43 and 47). -/
def pyStrip (s : String) : String :=
  String.mk (((s.data.dropWhile Char.isWhitespace).reverse.dropWhile
      Char.isWhitespace).reverse)

/-- `validate_form_data` (source lines 39-49): checks the four rules in order,
each appending its message independently (Python string truthiness: `not s`
is `s = ""`). -/
def validate_form_data (crime_type location officer description : String) :
    List String :=
  (if crime_type = "" then ["Crime type is required"] else []) ++
  (if location = "" ∨ (pyStrip location).length < 2 then
    ["Location must be at least 2 characters long"] else []) ++
  (if officer = "" then ["Officer assignment is required"] else []) ++
  (if description = "" ∨ (pyStrip description).length < 10 then
    ["Description must be at least 10 characters long"] else [])

/-- The decimal digit character for `k % 10`. -/
def digitChar10 (k : Nat) : Char := Nat.digitChar (k % 10)

/-- CPython `datetime.strftime("%Y%m%d")` as used at source line 37:
zero-padded four-digit year, two-digit month, two-digit day. Exact for
`1000 ≤ y ≤ 9999` (datetime years never exceed `datetime.MAXYEAR = 9999`),
`m ≤ 12`, `d ≤ 31`. -/
def strftimeYmd (y m d : Nat) : List Char :=
  [digitChar10 (y / 1000), digitChar10 (y / 100), digitChar10 (y / 10),
   digitChar10 y, digitChar10 (m / 10), digitChar10 m,
   digitChar10 (d / 10), digitChar10 d]

/-- `generate_crime_id` (source lines 36-37):
`f"CASE-{now.strftime('%Y%m%d')}-{str(uuid.uuid4())[:6].upper()}"`. The
current date components and the `str(uuid.uuid4())` character list are passed
in as the ambient inputs the function reads. -/
def generate_crime_id (y m d : Nat) (uuid : List Char) : String :=
  String.mk ("CASE-".data ++ strftimeYmd y m d ++ "-".data ++
    (uuid.take 6).map Char.toUpper)

/-- The submit branch of `add_crime` (source lines 109-141): validate; on any
error only report the messages; otherwise generate the id, write each uploaded
file under `uploads/`, record the attachment paths when files exist, build the
record dict and append it. `fs` is the list of filesystem paths written so far
in the upload directory; `file_upload` is the list of uploaded file names;
`now_str` is the registration timestamp string and `y m d`/`uuid` the inputs
`generate_crime_id` reads. Returns the new session state, the new filesystem
contents, and the outcome. -/
def add_crime_submit (st : SessionState) (fs : List String)
    (crime_type location officer status priority description notes
      incident_date now_str : String)
    (y m d : Nat) (uuid : List Char) (file_upload : List String) :
    SessionState × List String × Except (List String) CrimeRecord :=
  let errors := validate_form_data crime_type location officer description
  if errors ≠ [] then
    (st, fs, Except.error errors)
  else
    let crime_id := generate_crime_id y m d uuid
    let uploaded := file_upload.map
      (fun name => "uploads/" ++ crime_id ++ "_" ++ name)
    let fs' := fs ++ uploaded
    let uf' := if file_upload ≠ [] then
        st.uploaded_files ++ [(crime_id, uploaded)]
      else st.uploaded_files
    let record : CrimeRecord :=
      { ID := crime_id
        Type' := crime_type
        Location := location
        Officer := officer
        Status := status
        Priority := priority
        Description := description
        Notes := notes
        Date_Registered := now_str
        Incident_Date := incident_date
        Files := if file_upload ≠ [] then uploaded.length else 0 }
    ({ st with crimes := st.crimes ++ [record], uploaded_files := uf' },
     fs', Except.ok record)

/-- The string form of every field of a record, in column order: what
`df.astype(str)` produces for one row (the int `Files` becomes its decimal
digits). -/
def recordFieldStrings (r : CrimeRecord) : List String :=
  [r.ID, r.Type', r.Location, r.Officer, r.Status, r.Priority, r.Description,
   r.Notes, r.Date_Registered, r.Incident_Date, toString r.Files]

/-- One regex token against one character under `re.IGNORECASE`: `.` matches
any character, a literal character matches case-insensitively. -/
def tokenMatches (p c : Char) : Bool :=
  p == '.' || p.toLower == c.toLower

/-- Does the pattern match a prefix of the text, token by token? -/
def matchHere : List Char → List Char → Bool
  | [], _ => true
  | _ :: _, [] => false
  | p :: ps, c :: cs => tokenMatches p c && matchHere ps cs

/-- Python `re.search(pat, s, re.IGNORECASE) is not None` for patterns built
from literal characters and the wildcard `.` (the regex fragment the claims
exercise): the pattern matches starting at some position of the text. This is
what `Series.str.contains(pat, case=False, regex=True)` — the pandas default
used at source line 189 — computes per cell. -/
def reSearch (pat : List Char) : List Char → Bool
  | [] => matchHere pat []
  | c :: cs => matchHere pat (c :: cs) || reSearch pat cs

/-- Whether one cell's string matches the search pattern
(`str.contains(search_text, case=False, na=False)`). -/
def cellContains (search_text : String) (cell : String) : Bool :=
  reSearch search_text.data cell.data

/-- The free-text search mask of `view_crimes` (source line 189): a record
passes when any of its fields' string forms matches the search text. -/
def recordMatchesSearch (search_text : String) (r : CrimeRecord) : Bool :=
  (recordFieldStrings r).any (fun f => cellContains search_text f)

/-- The filter pipeline of `view_crimes` (source lines 186-210): free-text
mask when the search text is non-empty, then membership filters for crime
type, status, priority and officer when their selections are non-empty, then
the inclusive incident-date range when exactly two dates were picked
(`Incident_Date` strings are ISO `YYYY-MM-DD`, whose chronological order is
their lexicographic order). Each stage keeps the surviving rows in order. -/
def view_crimes_filter (search_text : String)
    (crime_type_filter status_filter priority_filter officer_filter :
      List String)
    (date_range : List String) (df : List CrimeRecord) : List CrimeRecord :=
  let f1 := if search_text ≠ "" then
      df.filter (fun r => recordMatchesSearch search_text r)
    else df
  let f2 := if crime_type_filter ≠ [] then
      f1.filter (fun r => crime_type_filter.contains r.Type')
    else f1
  let f3 := if status_filter ≠ [] then
      f2.filter (fun r => status_filter.contains r.Status)
    else f2
  let f4 := if priority_filter ≠ [] then
      f3.filter (fun r => priority_filter.contains r.Priority)
    else f3
  let f5 := if officer_filter ≠ [] then
      f4.filter (fun r => officer_filter.contains r.Officer)
    else f4
  match date_range with
  | [start_date, end_date] =>
      f5.filter (fun r =>
        decide (start_date ≤ r.Incident_Date) &&
        decide (r.Incident_Date ≤ end_date))
  | _ => f5

/-- The columns of a DataFrame built from the stored record dicts: the dict
keys in insertion order (source lines 126-138). -/
def recordColumns : List String :=
  ["ID", "Type", "Location", "Officer", "Status", "Priority", "Description",
   "Notes", "Date_Registered", "Incident_Date", "Files"]

/-- The cell of a record under a column name, as the string `to_csv` writes
(`Files`, an int, prints as its decimal digits). -/
def recordField (r : CrimeRecord) : String → String
  | "ID" => r.ID
  | "Type" => r.Type'
  | "Location" => r.Location
  | "Officer" => r.Officer
  | "Status" => r.Status
  | "Priority" => r.Priority
  | "Description" => r.Description
  | "Notes" => r.Notes
  | "Date_Registered" => r.Date_Registered
  | "Incident_Date" => r.Incident_Date
  | "Files" => toString r.Files
  | _ => ""

/-- csv QUOTE_MINIMAL: a field is quoted when it holds the delimiter, the
quote character, or a line break. -/
def csvNeedsQuoting (s : String) : Bool :=
  s.data.any (fun c => c == ',' || c == '"' || c == '\n' || c == '\r')

/-- Inside a quoted csv field a quote character is doubled. -/
def csvEscapeChar (c : Char) : List Char :=
  if c == '"' then ['"', '"'] else [c]

/-- One csv cell under QUOTE_MINIMAL, the quoting `DataFrame.to_csv` uses. -/
def csvField (s : String) : String :=
  if csvNeedsQuoting s then
    String.mk ('"' :: (s.data.map csvEscapeChar).flatten ++ ['"'])
  else s

/-- One csv line: cells joined by commas, terminated by a newline. -/
def csvLine (fields : List String) : String :=
  String.intercalate "," (fields.map csvField) ++ "\n"

/-- `export_to_csv` (source lines 51-55): build a DataFrame from the record
dicts, and when it is non-empty drop the column named `"File"` with
`errors='ignore'` (records carry no such column, so nothing is dropped; an
empty frame has no columns at all), then `to_csv(index=False)`: the header
line of the column names followed by one line per record. -/
def export_to_csv (data : List CrimeRecord) : String :=
  let columns :=
    if data = [] then [] else recordColumns.filter (fun c => c ≠ "File")
  csvLine columns ++
    String.join (data.map (fun r => csvLine (columns.map (recordField r))))

/-- A JSON value, as `json.dumps` serializes it (the fragment `backup_data`
produces: strings, ints, arrays, objects with insertion-ordered keys). -/
inductive Json where
  | str : String → Json
  | num : Nat → Json
  | arr : List Json → Json
  | obj : List (String × Json) → Json
deriving Repr

/-- A stored record as a JSON object: its dict keys in insertion order. -/
def crimeRecordJson (r : CrimeRecord) : Json :=
  Json.obj [("ID", Json.str r.ID), ("Type", Json.str r.Type'),
    ("Location", Json.str r.Location), ("Officer", Json.str r.Officer),
    ("Status", Json.str r.Status), ("Priority", Json.str r.Priority),
    ("Description", Json.str r.Description), ("Notes", Json.str r.Notes),
    ("Date_Registered", Json.str r.Date_Registered),
    ("Incident_Date", Json.str r.Incident_Date),
    ("Files", Json.num r.Files)]

/-- The backup document built in the Settings tab (source lines 368-372):
`{'crimes': st.session_state.crimes, 'officers': st.session_state.officers,
'export_date': datetime.now().isoformat()}`. -/
def backup_data (st : SessionState) (export_date : String) : Json :=
  Json.obj [("crimes", Json.arr (st.crimes.map crimeRecordJson)),
    ("officers", Json.arr (st.officers.map Json.str)),
    ("export_date", Json.str export_date)]

/-- The keys of a top-level JSON object, in order. -/
def topLevelKeys : Json → List String
  | Json.obj kvs => kvs.map Prod.fst
  | _ => []

/-- The value under a key of a top-level JSON object. -/
def lookupKey : Json → String → Option Json
  | Json.obj kvs, k => kvs.lookup k
  | _, _ => none

/-- The average-cases-per-officer metric of `crime_statistics` (source lines
284-285): `len(df) / len(df['Officer'].unique()) if len(df['Officer'].unique())
> 0 else 0`. `unique()` yields the distinct officer values (modelled by
`dedup`, whose length is the number of distinct values); the float division is
modelled exactly in `ℚ`. -/
def avg_cases_per_officer (crimes : List CrimeRecord) : ℚ :=
  let officers := (crimes.map (fun r => r.Officer)).dedup
  if 0 < officers.length then
    (crimes.length : ℚ) / (officers.length : ℚ)
  else 0

/-- Checker for the identifier format stated by the spec: the literal
`CASE-`, eight decimal digits, a hyphen, then exactly six characters each an
uppercase letter or a digit. -/
def matchesIdFormat (s : String) : Bool :=
  match s.data with
  | ['C', 'A', 'S', 'E', '-', d1, d2, d3, d4, d5, d6, d7, d8, '-',
     a1, a2, a3, a4, a5, a6] =>
      [d1, d2, d3, d4, d5, d6, d7, d8].all Char.isDigit &&
      [a1, a2, a3, a4, a5, a6].all (fun c => c.isUpper || c.isDigit)
  | _ => false

/-- A concrete registered record used to evaluate claims on explicit inputs
(the spec's example scenario: a theft on 5th Ave assigned to Officer Smith). -/
def r0 : CrimeRecord :=
  { ID := "CASE-20251001-AB12CD"
    Type' := "Theft"
    Location := "5th Ave"
    Officer := "Officer Smith"
    Status := "Open"
    Priority := "Medium"
    Description := "Stolen bicycle from porch"
    Notes := ""
    Date_Registered := "2025-10-01 10:00:00"
    Incident_Date := "2025-10-01"
    Files := 0 }

/-- A concrete session state holding one record and the seeded officers. -/
def st0 : SessionState :=
  { crimes := [r0]
    uploaded_files := []
    officers := ["Officer Smith", "Officer Johnson", "Officer Brown",
                 "Officer Davis", "Officer Wilson"] }

/-- Four records across two distinct officers, the spec's averaging example. -/
def statsSample : List CrimeRecord :=
  [r0, { r0 with ID := "CASE-20251001-EF34GH" },
   { r0 with ID := "CASE-20251001-IJ56KL", Officer := "Officer Johnson" },
   { r0 with ID := "CASE-20251001-MN78PQ", Officer := "Officer Johnson" }]

/-! Theorems for the claims. -/

/-- C8: with empty search text, empty crime-type, status, priority and officer
selections and no date range, the `view_crimes` filter pipeline returns the
record list unchanged, in the same order: the empty filter is the identity. -/
theorem view_crimes_filter_empty_is_identity (rs : List CrimeRecord) :
    view_crimes_filter "" [] [] [] [] [] rs = rs := rfl

/-- C7: with status filter `["Open"]` and all other filters empty, the
`view_crimes` filter pipeline returns exactly the subsequence of records whose
status equals "Open", in original order; every record with another status is
excluded. -/
theorem view_crimes_filter_status_open (rs : List CrimeRecord) :
    view_crimes_filter "" [] ["Open"] [] [] [] rs =
      rs.filter (fun r => decide (r.Status = "Open")) := by
  show rs.filter (fun r => (["Open"] : List String).contains r.Status) =
    rs.filter (fun r => decide (r.Status = "Open"))
  apply List.filter_congr
  intro r _
  simp [List.contains]

/-- C10: clearing all data empties the record store and the attachment index
but leaves the officer registry exactly as it was, same names in the same
order; the seeded registry of `initialize_session_state` is the five default
officers, so in particular those survive a clear. -/
theorem clear_all_data_preserves_officers (st : SessionState) :
    (clear_all_data st).officers = st.officers ∧
    (clear_all_data st).crimes = [] ∧
    (clear_all_data st).uploaded_files = [] ∧
    initialize_session_state.officers =
      ["Officer Smith", "Officer Johnson", "Officer Brown",
       "Officer Davis", "Officer Wilson"] :=
  ⟨rfl, rfl, rfl, rfl⟩

/-- C1: the CSV export keeps the attachment-count column. The drop targets a
column named "File", but records carry "Files", and `errors='ignore'` hides
the mismatch, so the drop removes nothing: exporting one record yields a
header that still ends in `Files` and a row that still carries the count. -/
theorem export_to_csv_retains_files_column :
    recordColumns.filter (fun c => c ≠ "File") = recordColumns ∧
    "Files" ∈ recordColumns.filter (fun c => c ≠ "File") ∧
    export_to_csv [r0] =
      "ID,Type,Location,Officer,Status,Priority,Description,Notes," ++
      "Date_Registered,Incident_Date,Files\n" ++
      "CASE-20251001-AB12CD,Theft,5th Ave,Officer Smith,Open,Medium," ++
      "Stolen bicycle from porch,,2025-10-01 10:00:00,2025-10-01,0\n" := by
  refine ⟨by decide, by decide, ?_⟩
  rfl

/-- C2 counterexample: on a concrete non-empty store the backup document's
top-level keys are `crimes`, `officers`, `export_date` — not the claimed
`records`, `officers`, `exportDate`; neither `records` nor `exportDate`
occurs among its keys. -/
theorem backup_data_keys_counterexample :
    topLevelKeys (backup_data st0 "2025-10-01T12:00:00") =
      ["crimes", "officers", "export_date"] ∧
    topLevelKeys (backup_data st0 "2025-10-01T12:00:00") ≠
      ["records", "officers", "exportDate"] ∧
    "records" ∉ topLevelKeys (backup_data st0 "2025-10-01T12:00:00") ∧
    "exportDate" ∉ topLevelKeys (backup_data st0 "2025-10-01T12:00:00") := by
  refine ⟨rfl, by decide, by decide, by decide⟩

/-- C2 amended: for every store state, the JSON backup document is a top-level
object whose keys are exactly `crimes` (array of record objects), `officers`
(array of strings) and `export_date` (the ISO-8601 timestamp string), in that
order. -/
theorem backup_data_top_level_shape (st : SessionState)
    (export_date : String) :
    topLevelKeys (backup_data st export_date) =
      ["crimes", "officers", "export_date"] ∧
    lookupKey (backup_data st export_date) "crimes" =
      some (Json.arr (st.crimes.map crimeRecordJson)) ∧
    lookupKey (backup_data st export_date) "officers" =
      some (Json.arr (st.officers.map Json.str)) ∧
    lookupKey (backup_data st export_date) "export_date" =
      some (Json.str export_date) :=
  ⟨rfl, rfl, rfl, rfl⟩

/-- C9: for a non-empty record list the average-cases-per-officer metric is
the total record count divided by the number of distinct officer values, and
for an empty list it is 0. -/
theorem avg_cases_per_officer_spec (rs : List CrimeRecord) (hne : rs ≠ []) :
    avg_cases_per_officer rs =
      (rs.length : ℚ) / ((rs.map (fun r => r.Officer)).dedup.length : ℚ) ∧
    avg_cases_per_officer [] = 0 := by
  constructor
  · unfold avg_cases_per_officer
    rw [if_pos]
    apply List.length_pos.mpr
    simp [List.dedup_eq_nil, hne]
  · rfl

/-- C9 witness: on four concrete records across two distinct officers the
metric evaluates, through the theorem, to 4 / 2 = 2. -/
theorem avg_cases_per_officer_spec_witness :
    statsSample ≠ [] ∧ avg_cases_per_officer statsSample = 2 := by
  refine ⟨by decide, ?_⟩
  have h := (avg_cases_per_officer_spec statsSample (by decide)).1
  have hlen : statsSample.length = 4 := by decide
  have hded : ((statsSample.map (fun r => r.Officer)).dedup.length) = 2 := by
    decide
  rw [h, hlen, hded]
  norm_num

/-- C4: when validation fails, the submit branch of `add_crime` performs no
mutation: the record store, the attachment index, the officer registry and the
upload directory are exactly as before, and the outcome is only the error
message list. -/
theorem add_crime_submit_no_mutation_on_invalid
    (st : SessionState) (fs : List String)
    (crime_type location officer status priority description notes
      incident_date now_str : String) (y m d : Nat) (uuid : List Char)
    (file_upload : List String)
    (h : validate_form_data crime_type location officer description ≠ []) :
    add_crime_submit st fs crime_type location officer status priority
        description notes incident_date now_str y m d uuid file_upload =
      (st, fs, Except.error
        (validate_form_data crime_type location officer description)) := by
  unfold add_crime_submit
  rw [if_pos h]

/-- C4 witness: a concrete submission with a nine-character description fails
validation and leaves the concrete state and filesystem untouched. -/
theorem add_crime_submit_no_mutation_on_invalid_witness :
    validate_form_data "Theft" "5th Ave" "Officer Smith" "short" ≠ [] ∧
    add_crime_submit st0 [] "Theft" "5th Ave" "Officer Smith" "Open"
        "Medium" "short" "" "2025-10-01" "2025-10-01 10:00:00" 2025 10 1
        "a1b2c3".data [] =
      (st0, [], Except.error
        (validate_form_data "Theft" "5th Ave" "Officer Smith" "short")) :=
  ⟨by decide, add_crime_submit_no_mutation_on_invalid st0 [] "Theft"
    "5th Ave" "Officer Smith" "Open" "Medium" "short" "" "2025-10-01"
    "2025-10-01 10:00:00" 2025 10 1 "a1b2c3".data [] (by decide)⟩

/-- C5: validation returns the empty list exactly when crime type, officer
are non-empty, location is non-empty with trimmed length at least 2, and the
description is non-empty with trimmed length at least 10; all four rules are
checked independently (the number of messages equals the number of violated
rules), and violating exactly one rule yields exactly the one message naming
that field. -/
theorem validate_form_data_spec (ct loc off desc : String) :
    (validate_form_data ct loc off desc = [] ↔
      ct ≠ "" ∧ loc ≠ "" ∧ 2 ≤ (pyStrip loc).length ∧ off ≠ "" ∧
        desc ≠ "" ∧ 10 ≤ (pyStrip desc).length) ∧
    (validate_form_data ct loc off desc).length =
      ((if ct = "" then 1 else 0) +
       (if loc = "" ∨ (pyStrip loc).length < 2 then 1 else 0) +
       (if off = "" then 1 else 0) +
       (if desc = "" ∨ (pyStrip desc).length < 10 then 1 else 0)) ∧
    (ct = "" → ¬(loc = "" ∨ (pyStrip loc).length < 2) → off ≠ "" →
      ¬(desc = "" ∨ (pyStrip desc).length < 10) →
      validate_form_data ct loc off desc = ["Crime type is required"]) ∧
    (ct ≠ "" → (loc = "" ∨ (pyStrip loc).length < 2) → off ≠ "" →
      ¬(desc = "" ∨ (pyStrip desc).length < 10) →
      validate_form_data ct loc off desc =
        ["Location must be at least 2 characters long"]) ∧
    (ct ≠ "" → ¬(loc = "" ∨ (pyStrip loc).length < 2) → off = "" →
      ¬(desc = "" ∨ (pyStrip desc).length < 10) →
      validate_form_data ct loc off desc =
        ["Officer assignment is required"]) ∧
    (ct ≠ "" → ¬(loc = "" ∨ (pyStrip loc).length < 2) → off ≠ "" →
      (desc = "" ∨ (pyStrip desc).length < 10) →
      validate_form_data ct loc off desc =
        ["Description must be at least 10 characters long"]) := by
  unfold validate_form_data
  split_ifs with h1 h2 h3 h4 <;> simp_all <;> tauto

/-- C5 witness: the spec's example scenario passes validation, and shortening
the description to "short" fails with exactly the description message. -/
theorem validate_form_data_spec_witness :
    validate_form_data "Theft" "5th Ave" "Officer Smith"
      "Stolen bicycle from porch" = [] ∧
    validate_form_data "Theft" "5th Ave" "Officer Smith" "short" =
      ["Description must be at least 10 characters long"] := by
  constructor
  · exact (validate_form_data_spec "Theft" "5th Ave" "Officer Smith"
      "Stolen bicycle from porch").1.mpr (by decide)
  · exact (validate_form_data_spec "Theft" "5th Ave" "Officer Smith"
      "short").2.2.2.2.2 (by decide) (by decide) (by decide) (by decide)

/-- Every decimal digit character is a digit. -/
theorem digitChar10_isDigit (k : Nat) : (digitChar10 k).isDigit = true := by
  unfold digitChar10
  have h : k % 10 < 10 := Nat.mod_lt k (by omega)
  set n := k % 10 with hn
  interval_cases n <;> decide

/-- Uppercasing a lowercase hex digit yields an uppercase letter or digit. -/
theorem hexLower_toUpper_ok (c : Char)
    (hc : c ∈ "0123456789abcdef".data) :
    (c.toUpper.isUpper || c.toUpper.isDigit) = true := by
  fin_cases hc <;> decide

/-- C6: every identifier produced by `generate_crime_id` matches the format
`CASE-` + eight decimal digits + `-` + six uppercase alphanumerics, given
that the clock reads a four-digit year (datetime years never exceed 9999) and
that the first six characters of `str(uuid.uuid4())` are lowercase hex digits
(they are: the uuid string opens with eight hex digits). -/
theorem generate_crime_id_format (y m d : Nat) (uuid : List Char)
    (_hy1 : 1000 ≤ y) (_hy2 : y ≤ 9999) (hlen : 6 ≤ uuid.length)
    (hhex : ∀ c ∈ uuid.take 6, c ∈ "0123456789abcdef".data) :
    matchesIdFormat (generate_crime_id y m d uuid) = true := by
  rcases uuid with _ | ⟨u1, uuid⟩
  · simp at hlen
  rcases uuid with _ | ⟨u2, uuid⟩
  · simp at hlen
  rcases uuid with _ | ⟨u3, uuid⟩
  · simp at hlen
  rcases uuid with _ | ⟨u4, uuid⟩
  · simp at hlen
  rcases uuid with _ | ⟨u5, uuid⟩
  · simp at hlen
  rcases uuid with _ | ⟨u6, uuid⟩
  · simp at hlen
  have m1 : u1 ∈ "0123456789abcdef".data := hhex u1 (by simp)
  have m2 : u2 ∈ "0123456789abcdef".data := hhex u2 (by simp)
  have m3 : u3 ∈ "0123456789abcdef".data := hhex u3 (by simp)
  have m4 : u4 ∈ "0123456789abcdef".data := hhex u4 (by simp)
  have m5 : u5 ∈ "0123456789abcdef".data := hhex u5 (by simp)
  have m6 : u6 ∈ "0123456789abcdef".data := hhex u6 (by simp)
  show matchesIdFormat (String.mk _) = true
  simp only [generate_crime_id, strftimeYmd, matchesIdFormat, List.take,
    List.map, List.cons_append, List.nil_append, List.all_cons, List.all_nil,
    Bool.and_true, Bool.and_eq_true]
  refine ⟨⟨?_, ?_, ?_, ?_, ?_, ?_, ?_, ?_⟩, ?_, ?_, ?_, ?_, ?_, ?_⟩
  · exact digitChar10_isDigit _
  · exact digitChar10_isDigit _
  · exact digitChar10_isDigit _
  · exact digitChar10_isDigit _
  · exact digitChar10_isDigit _
  · exact digitChar10_isDigit _
  · exact digitChar10_isDigit _
  · exact digitChar10_isDigit _
  · exact hexLower_toUpper_ok u1 m1
  · exact hexLower_toUpper_ok u2 m2
  · exact hexLower_toUpper_ok u3 m3
  · exact hexLower_toUpper_ok u4 m4
  · exact hexLower_toUpper_ok u5 m5
  · exact hexLower_toUpper_ok u6 m6

/-- The claim's reading of the free-text filter: some field's string form
contains the search text as a case-insensitive literal substring (the text
taken as plain text, not as a pattern). -/
def specLiteralMatch (search_text : String) (r : CrimeRecord) : Prop :=
  ∃ f ∈ recordFieldStrings r,
    (search_text.data.map Char.toLower) <:+: (f.data.map Char.toLower)

instance (s : String) (r : CrimeRecord) : Decidable (specLiteralMatch s r) :=
  List.decidableBEx _ _

/-- For a pattern without the `.` wildcard, matching at the head of the text
is exactly: the lowered pattern is a prefix of the lowered text. -/
theorem matchHere_iff_startsWith (ps : List Char) (hps : '.' ∉ ps) :
    ∀ cs : List Char, (matchHere ps cs = true ↔
      (ps.map Char.toLower) <+: (cs.map Char.toLower)) := by
  induction ps with
  | nil => intro cs; simp [matchHere]
  | cons p ps ih =>
    intro cs
    have hp : p ≠ '.' := fun h => hps (h ▸ List.mem_cons_self p ps)
    have hps' : '.' ∉ ps := fun h => hps (List.mem_cons_of_mem _ h)
    cases cs with
    | nil => simp [matchHere]
    | cons c cs =>
      rw [List.map_cons, List.map_cons, List.cons_prefix_cons]
      have hdot : (p == '.') = false := by simp [hp]
      simp [matchHere, tokenMatches, hdot, ih hps' cs]

/-- For a pattern without the `.` wildcard, `re.search` succeeding is
exactly: the lowered pattern occurs inside the lowered text. -/
theorem reSearch_iff_occurs (ps : List Char) (hps : '.' ∉ ps) :
    ∀ cs : List Char, (reSearch ps cs = true ↔
      (ps.map Char.toLower) <:+: (cs.map Char.toLower)) := by
  intro cs
  induction cs with
  | nil =>
    simp [reSearch, matchHere_iff_startsWith ps hps []]
  | cons c cs ih =>
    rw [List.map_cons]
    simp only [reSearch, Bool.or_eq_true, matchHere_iff_startsWith ps hps (c :: cs),
      ih, List.infix_cons_iff, List.map_cons]

/-- For wildcard-free search text the code's search mask coincides with the
literal-substring reading. -/
theorem recordMatchesSearch_iff (s : String) (hplain : '.' ∉ s.data)
    (r : CrimeRecord) :
    recordMatchesSearch s r = true ↔ specLiteralMatch s r := by
  unfold recordMatchesSearch specLiteralMatch cellContains
  rw [List.any_eq_true]
  constructor
  · rintro ⟨f, hf, hsearch⟩
    exact ⟨f, hf, (reSearch_iff_occurs _ hplain _).mp hsearch⟩
  · rintro ⟨f, hf, hinf⟩
    exact ⟨f, hf, (reSearch_iff_occurs _ hplain _).mpr hinf⟩

/-- C3 counterexample: with search text "." the filter keeps the concrete
record `r0` although no field of `r0` contains "." as a literal substring —
`str.contains` reads the search text as a regular expression (the pandas
default `regex=True`), where `.` matches any character, refuting the claim as
stated. -/
theorem search_filter_counterexample :
    view_crimes_filter "." [] [] [] [] [] [r0] = [r0] ∧
    ¬ specLiteralMatch "." r0 := by
  constructor
  · decide
  · decide

/-- C3 amended: the search text is interpreted as a case-insensitive regular
expression (pandas `str.contains` default `regex=True`), not as plain text;
for every non-empty search text free of regex metacharacters (in the modelled
fragment: without the `.` wildcard), the free-text filter keeps a record iff
the string form of at least one of its fields contains the text as a
case-insensitive literal substring. -/
theorem search_filter_literal_for_plain_text (s : String) (hne : s ≠ "")
    (hplain : '.' ∉ s.data) (rs : List CrimeRecord) (r : CrimeRecord) :
    r ∈ view_crimes_filter s [] [] [] [] [] rs ↔
      r ∈ rs ∧ specLiteralMatch s r := by
  have hv : view_crimes_filter s [] [] [] [] [] rs =
      if s ≠ "" then rs.filter (fun r => recordMatchesSearch s r) else rs :=
    rfl
  rw [hv, if_pos hne, List.mem_filter,
    recordMatchesSearch_iff s hplain r]

/-- C3 amended witness: searching the plain text "theft" keeps `r0`
(whose crime type is "Theft") exactly as the literal reading predicts. -/
theorem search_filter_literal_for_plain_text_witness :
    ("theft" ≠ "" ∧ '.' ∉ "theft".data) ∧
    (r0 ∈ view_crimes_filter "theft" [] [] [] [] [] [r0] ↔
      r0 ∈ [r0] ∧ specLiteralMatch "theft" r0) :=
  ⟨⟨by decide, by decide⟩,
    search_filter_literal_for_plain_text "theft" (by decide) (by decide)
      [r0] r0⟩

/-- C6 witness: a concrete clock reading and uuid string yield an identifier
in the required format. -/
theorem generate_crime_id_format_witness :
    (1000 ≤ 2025 ∧ 2025 ≤ 9999 ∧
      6 ≤ "a1b2c3d4-e5f6".data.length) ∧
    matchesIdFormat (generate_crime_id 2025 10 1 "a1b2c3d4-e5f6".data) =
      true :=
  ⟨by decide, generate_crime_id_format 2025 10 1 "a1b2c3d4-e5f6".data
    (by decide) (by decide) (by decide) (by decide)⟩
